import Mathlib

/-!
Verification of `google/cloud/forseti/common/gcp_api/servicemanagement.py`
(Forseti Security, Service Management API wrapper).

Python strings are modelled as `List Char`.  The generic repository base
class, list / get-IAM-policy mixins, the pagination flattener and the
domain-error constructor live outside this module; they are modelled as an
explicit transport record and, where their behaviour matters, from the
spec's description of their contract (marked `Modelled from the spec:`).
Fallible remote calls return `Except`.
-/

namespace ServiceManagement

/-- Python strings, modelled as lists of characters. -/
abbrev Str := List Char

/-- Python `s.startswith(pre)`. -/
def startswith (s pre : Str) : Bool := pre.isPrefixOf s

/-- Python truthiness of an optional-string argument defaulting to `None`:
`None` and `''` are falsy, every other string is truthy. -/
def pyTruthyStr : Option Str → Bool
  | none => false
  | some s => !s.isEmpty

/-- Python truthiness of an optional-integer argument defaulting to `None`:
`None` and `0` are falsy. -/
def pyTruthyInt : Option Int → Bool
  | none => false
  | some n => decide (n ≠ 0)

/-- From `_ServiceManagementServicesRepository.get_formatted_project_name`:
if the project id does not start with `'project:'`, prefix it. -/
def get_formatted_project_name (project_id : Str) : Str :=
  if !(startswith project_id ("project:".toList)) then
    "project:".toList ++ project_id
  else
    project_id

/-- From `_ServiceManagementServicesRepository.get_formatted_service_name`:
if the service name does not start with `'services/'`, prefix it. -/
def get_formatted_service_name (service_name : Str) : Str :=
  if !(startswith service_name ("services/".toList)) then
    "services/".toList ++ service_name
  else
    service_name

/-- From `ServiceManagementRepositoryClient.__init__`: the
`use_rate_limiter` value actually passed to the base repository.  The
source sets `use_rate_limiter = False` when `not quota_max_calls`
(i.e. `quota_max_calls` is `None` or `0`). -/
def effective_use_rate_limiter (quota_max_calls : Option Int)
    (use_rate_limiter : Bool) : Bool :=
  if !(pyTruthyInt quota_max_calls) then false else use_rate_limiter

/-- Exceptions a remote call can raise.  `httpError` models
`googleapiclient.errors.HttpError`, `httpLib2Error` models
`httplib2.HttpLib2Error`; `otherError` is any other exception type. -/
inductive PyException where
  | httpError (code : Nat) (msg : Str)
  | httpLib2Error (msg : Str)
  | otherError (msg : Str)
deriving DecidableEq

/-- Whether an exception is caught by the source's
`except (errors.HttpError, HttpLib2Error)` clauses. -/
def PyException.isTransportFailure : PyException → Bool
  | .httpError _ _ => true
  | .httpLib2Error _ => true
  | .otherError _ => false

/-- Modelled from the spec: the domain error constructor
`api_errors.ApiExecutionError` (outside src/), described as
`makeApiError(contextLabel, cause, [tagKey, tagValue])`: it wraps a
transport-layer failure into one uniform type carrying an optional context
label and an optional key/value tag. -/
structure ApiExecutionError where
  label : Str
  cause : PyException
  tag : Option (Str × Str)
deriving DecidableEq

/-- Outcome of a client operation that raises: either the wrapped domain
error, or an exception not caught by the `except` clauses, which
propagates unchanged. -/
inductive ClientError where
  | apiError (err : ApiExecutionError)
  | uncaught (e : PyException)
deriving DecidableEq

/-- One page of a paged list result: a dictionary from keys to item
arrays; the key of interest (`'services'`) may be absent. -/
abbrev Page (α : Type) := List (Str × List α)

/-- Modelled from the spec: `api_helpers.flatten_list_results(paged_results,
key)` (outside src/): flattens all pages' arrays under `key` into one
ordered sequence, preserving page and in-page order; a page without the
key contributes zero items. -/
def flatten_list_results {α : Type} (pages : List (Page α)) (key : Str) :
    List α :=
  pages.foldr (fun page acc => ((page.lookup key).getD []) ++ acc) []

/-- Arguments of a `services.list` call (the list capability comes from
`ListQueryMixin`, outside src/): optional `producerProjectId` and
`consumerId` filters and an optional page-size bound. -/
structure ListArgs where
  producerProjectId : Option Str
  consumerId : Option Str
  max_results : Option Nat
deriving DecidableEq

/-- The remote calls available on the services sub-repository, supplied by
the base repository and mixins (outside src/).  Each call either returns a
response or raises an exception. -/
structure ServicesTransport (α : Type) where
  list : ListArgs → Except PyException (List (Page α))
  get_iam_policy : Str → Except PyException α
  execute_query : Str → List (Str × Str) → Except PyException α

/-- From `_ServiceManagementServicesRepository.get_config`: builds the
verb arguments — `serviceName` (the repository's key field) always,
`configId` and `view` only when truthy — and executes the named verb. -/
def get_config {α : Type} (t : ServicesTransport α) (resource : Str)
    (config_id : Option Str) (view : Option Str) (verb : Str) :
    Except PyException α :=
  let arguments : List (Str × Str) := [("serviceName".toList, resource)]
  let arguments :=
    if pyTruthyStr config_id then
      arguments ++ [("configId".toList, config_id.getD [])]
    else arguments
  let arguments :=
    if pyTruthyStr view then
      arguments ++ [("view".toList, view.getD [])]
    else arguments
  t.execute_query verb arguments

/-- `ServiceManagementClient.DEFAULT_MAX_RESULTS`. -/
def DEFAULT_MAX_RESULTS : Nat := 100

/-- From `ServiceManagementClient.get_all_apis`: one unfiltered list call,
flattened under `'services'`; transport failures become
`ApiExecutionError('', e)`. -/
def get_all_apis {α : Type} (t : ServicesTransport α) :
    Except ClientError (List α) :=
  match t.list ⟨none, none, some DEFAULT_MAX_RESULTS⟩ with
  | .ok paged_results =>
      .ok (flatten_list_results paged_results ("services".toList))
  | .error e =>
      if e.isTransportFailure then
        .error (.apiError ⟨[], e, none⟩)
      else
        .error (.uncaught e)

/-- From `ServiceManagementClient.get_produced_apis`: list filtered by
`producerProjectId`; transport failures become
`ApiExecutionError('name', e, 'project_id', project_id)`. -/
def get_produced_apis {α : Type} (t : ServicesTransport α)
    (project_id : Str) : Except ClientError (List α) :=
  match t.list ⟨some project_id, none, some DEFAULT_MAX_RESULTS⟩ with
  | .ok paged_results =>
      .ok (flatten_list_results paged_results ("services".toList))
  | .error e =>
      if e.isTransportFailure then
        .error (.apiError ⟨"name".toList, e,
                           some ("project_id".toList, project_id)⟩)
      else
        .error (.uncaught e)

/-- From `ServiceManagementClient.get_enabled_apis`: the project id is
formatted first, the list call is filtered by `consumerId`; transport
failures become `ApiExecutionError('name', e, 'project_id', project_id)`
with the raw project id. -/
def get_enabled_apis {α : Type} (t : ServicesTransport α)
    (project_id : Str) : Except ClientError (List α) :=
  let formatted_project_id := get_formatted_project_name project_id
  match t.list ⟨none, some formatted_project_id, some DEFAULT_MAX_RESULTS⟩ with
  | .ok paged_results =>
      .ok (flatten_list_results paged_results ("services".toList))
  | .error e =>
      if e.isTransportFailure then
        .error (.apiError ⟨"name".toList, e,
                           some ("project_id".toList, project_id)⟩)
      else
        .error (.uncaught e)

/-- From `ServiceManagementClient.get_api_iam_policy`: the service name is
formatted first, then `get_iam_policy` is called; transport failures
become `ApiExecutionError('serviceIamPolicy', e, 'serviceName',
service_name)` with the raw service name. -/
def get_api_iam_policy {α : Type} (t : ServicesTransport α)
    (service_name : Str) : Except ClientError α :=
  let name := get_formatted_service_name service_name
  match t.get_iam_policy name with
  | .ok result => .ok result
  | .error e =>
      if e.isTransportFailure then
        .error (.apiError ⟨"serviceIamPolicy".toList, e,
                           some ("serviceName".toList, service_name)⟩)
      else
        .error (.uncaught e)

/-- From `ServiceManagementClient.get_full_api_configuration`: calls
`get_config(service_name)` with Python defaults (`config_id=None`,
`view=None`, `verb='getConfig'`); transport failures become
`ApiExecutionError('serviceConfig', e, 'serviceName', service_name)`. -/
def get_full_api_configuration {α : Type} (t : ServicesTransport α)
    (service_name : Str) : Except ClientError α :=
  match get_config t service_name none none ("getConfig".toList) with
  | .ok result => .ok result
  | .error e =>
      if e.isTransportFailure then
        .error (.apiError ⟨"serviceConfig".toList, e,
                           some ("serviceName".toList, service_name)⟩)
      else
        .error (.uncaught e)

/-- Whether a client operation raised the wrapped domain error. -/
def raisesApiExecutionError {α : Type} : Except ClientError α → Bool
  | .error (.apiError _) => true
  | _ => false

/-- The context label of the domain error raised by a client operation,
when one was raised. -/
def errorLabel {α : Type} : Except ClientError α → Option Str
  | .error (.apiError err) => some err.label
  | _ => none

/-- A concrete transport used in witnesses: every call succeeds with fixed
pages / documents. -/
def sampleTransport : ServicesTransport Nat :=
  ⟨fun _ => .ok [[("services".toList, [1, 2])], [("services".toList, [3])]],
   fun _ => .ok 7,
   fun _ _ => .ok 9⟩

/-- A concrete transport whose every call raises an HTTP 403 error. -/
def failingTransport : ServicesTransport Nat :=
  ⟨fun _ => .error (.httpError 403 ("denied".toList)),
   fun _ => .error (.httpError 403 ("denied".toList)),
   fun _ _ => .error (.httpError 403 ("denied".toList))⟩

/-- A concrete transport whose every call raises a non-transport
exception. -/
def otherFailTransport : ServicesTransport Nat :=
  ⟨fun _ => .error (.otherError ("bad".toList)),
   fun _ => .error (.otherError ("bad".toList)),
   fun _ _ => .error (.otherError ("bad".toList))⟩

end ServiceManagement

namespace ServiceManagement

/-- C5 helper: a list is a boolean prefix of itself followed by anything. -/
theorem startswith_prepend (pre x : Str) : startswith (pre ++ x) pre = true := by
  unfold startswith
  rw [List.isPrefixOf_iff_prefix]
  exact List.prefix_append pre x

/-- C5 helper: prepending a nonempty list changes the list. -/
theorem prepend_ne (pre x : Str) (h : pre ≠ []) : pre ++ x ≠ x := by
  intro he
  apply h
  have hl := congrArg List.length he
  simp only [List.length_append] at hl
  exact List.eq_nil_of_length_eq_zero (by omega)

/-- C5: `get_formatted_project_name` is a total pure function on strings:
for every `x` not starting with `"project:"` the result is
`"project:" ++ x`; for every `x` already starting with `"project:"` the
result is `x` unchanged; and it is idempotent. -/
theorem c5_get_formatted_project_name (x : Str) :
    (startswith x ("project:".toList) = false →
      get_formatted_project_name x = "project:".toList ++ x) ∧
    (startswith x ("project:".toList) = true →
      get_formatted_project_name x = x) ∧
    get_formatted_project_name (get_formatted_project_name x) =
      get_formatted_project_name x := by
  refine ⟨?_, ?_, ?_⟩
  · intro h
    unfold get_formatted_project_name
    rw [h]
    simp
  · intro h
    unfold get_formatted_project_name
    rw [h]
    simp
  · cases h : startswith x ("project:".toList) with
    | false =>
      have h1 : get_formatted_project_name x = "project:".toList ++ x := by
        unfold get_formatted_project_name
        rw [h]
        simp
      have h2 : get_formatted_project_name ("project:".toList ++ x) =
          "project:".toList ++ x := by
        unfold get_formatted_project_name
        rw [startswith_prepend]
        simp
      rw [h1, h2]
    | true =>
      have h1 : get_formatted_project_name x = x := by
        unfold get_formatted_project_name
        rw [h]
        simp
      rw [h1]
      exact h1

/-- C5 witness: concrete evaluations of `get_formatted_project_name`. -/
theorem c5_get_formatted_project_name_witness :
    get_formatted_project_name ("p1".toList) = "project:p1".toList ∧
    get_formatted_project_name ("project:p1".toList) = "project:p1".toList ∧
    get_formatted_project_name (get_formatted_project_name ("p1".toList)) =
      get_formatted_project_name ("p1".toList) :=
  ⟨(c5_get_formatted_project_name ("p1".toList)).1 (by decide),
   (c5_get_formatted_project_name ("project:p1".toList)).2.1 (by decide),
   (c5_get_formatted_project_name ("p1".toList)).2.2⟩

/-- C6: `get_formatted_service_name` is a total pure function on strings:
for every `x` not starting with `"services/"` the result is
`"services/" ++ x`; for every `x` already starting with `"services/"` the
result is `x` unchanged; and it is idempotent. -/
theorem c6_get_formatted_service_name (x : Str) :
    (startswith x ("services/".toList) = false →
      get_formatted_service_name x = "services/".toList ++ x) ∧
    (startswith x ("services/".toList) = true →
      get_formatted_service_name x = x) ∧
    get_formatted_service_name (get_formatted_service_name x) =
      get_formatted_service_name x := by
  refine ⟨?_, ?_, ?_⟩
  · intro h
    unfold get_formatted_service_name
    rw [h]
    simp
  · intro h
    unfold get_formatted_service_name
    rw [h]
    simp
  · cases h : startswith x ("services/".toList) with
    | false =>
      have h1 : get_formatted_service_name x = "services/".toList ++ x := by
        unfold get_formatted_service_name
        rw [h]
        simp
      have h2 : get_formatted_service_name ("services/".toList ++ x) =
          "services/".toList ++ x := by
        unfold get_formatted_service_name
        rw [startswith_prepend]
        simp
      rw [h1, h2]
    | true =>
      have h1 : get_formatted_service_name x = x := by
        unfold get_formatted_service_name
        rw [h]
        simp
      rw [h1]
      exact h1

/-- C6 witness: concrete evaluations of `get_formatted_service_name`. -/
theorem c6_get_formatted_service_name_witness :
    get_formatted_service_name ("svcA".toList) = "services/svcA".toList ∧
    get_formatted_service_name ("services/svcA".toList) =
      "services/svcA".toList ∧
    get_formatted_service_name (get_formatted_service_name ("svcA".toList)) =
      get_formatted_service_name ("svcA".toList) :=
  ⟨(c6_get_formatted_service_name ("svcA".toList)).1 (by decide),
   (c6_get_formatted_service_name ("services/svcA".toList)).2.1 (by decide),
   (c6_get_formatted_service_name ("svcA".toList)).2.2⟩

/-- C9: in the repository-client constructor, when `quota_max_calls` is
absent (`None`) or zero, the `use_rate_limiter` flag passed to the base
repository is `false` regardless of the caller-supplied value; when
`quota_max_calls` is a positive integer the caller-supplied value is
passed through unchanged. -/
theorem c9_use_rate_limiter_forced_off :
    (∀ u : Bool, effective_use_rate_limiter none u = false) ∧
    (∀ u : Bool, effective_use_rate_limiter (some 0) u = false) ∧
    (∀ (n : Int) (u : Bool), 0 < n →
      effective_use_rate_limiter (some n) u = u) := by
  refine ⟨fun u => rfl, fun u => rfl, fun n u h => ?_⟩
  have hne : n ≠ 0 := by omega
  simp [effective_use_rate_limiter, pyTruthyInt, hne]

/-- C9 witness: with `quota_max_calls = 5`, the requested flag survives. -/
theorem c9_use_rate_limiter_forced_off_witness :
    effective_use_rate_limiter (some 5) true = true :=
  c9_use_rate_limiter_forced_off.2.2 5 true (by decide)

/-- C10: `get_config` includes `configId` and `view` in the remote-call
argument map only when truthy: supplying the empty string for either is
indistinguishable from omitting it (the argument is silently dropped, not
sent empty or rejected). -/
theorem c10_get_config_falsy_dropped {α : Type} (t : ServicesTransport α)
    (resource verb : Str) (c v : Option Str) :
    get_config t resource (some []) v verb =
      get_config t resource none v verb ∧
    get_config t resource c (some []) verb =
      get_config t resource c none verb := by
  constructor <;> rfl

/-- C7: `get_config` issues the named verb with argument map
`{serviceName: resource}` plus `configId` and `view` exactly when they are
supplied (as truthy values), and `get_full_api_configuration` calls
`get_config` with neither `configId` nor `view` and returns the resulting
document unchanged — no pagination or flattening. -/
theorem c7_get_config_arguments {α : Type} (t : ServicesTransport α)
    (resource verb c v : Str) (hc : c ≠ []) (hv : v ≠ []) :
    get_config t resource (some c) (some v) verb =
      t.execute_query verb
        [("serviceName".toList, resource), ("configId".toList, c),
         ("view".toList, v)] ∧
    get_config t resource (some c) none verb =
      t.execute_query verb
        [("serviceName".toList, resource), ("configId".toList, c)] ∧
    get_config t resource none (some v) verb =
      t.execute_query verb
        [("serviceName".toList, resource), ("view".toList, v)] ∧
    get_config t resource none none verb =
      t.execute_query verb [("serviceName".toList, resource)] ∧
    (∀ doc : α,
      t.execute_query ("getConfig".toList)
        [("serviceName".toList, resource)] = .ok doc →
      get_full_api_configuration t resource = .ok doc) := by
  have hc' : pyTruthyStr (some c) = true := by
    cases c with
    | nil => exact absurd rfl hc
    | cons a l => rfl
  have hv' : pyTruthyStr (some v) = true := by
    cases v with
    | nil => exact absurd rfl hv
    | cons a l => rfl
  refine ⟨?_, ?_, ?_, rfl, ?_⟩
  · unfold get_config
    rw [hc', hv']
    rfl
  · unfold get_config
    rw [hc']
    rfl
  · unfold get_config
    rw [hv']
    rfl
  · intro doc hdoc
    unfold get_full_api_configuration
    have hcfg : get_config t resource none none ("getConfig".toList) =
        .ok doc := hdoc
    rw [hcfg]

/-- C7 witness: concrete evaluation with nonempty `configId` and `view`. -/
theorem c7_get_config_arguments_witness :
    get_config sampleTransport ("svcA".toList) (some ("cfg1".toList))
      (some ("FULL".toList)) ("getConfig".toList) =
      sampleTransport.execute_query ("getConfig".toList)
        [("serviceName".toList, "svcA".toList),
         ("configId".toList, "cfg1".toList),
         ("view".toList, "FULL".toList)] ∧
    get_full_api_configuration sampleTransport ("svcA".toList) = .ok 9 :=
  ⟨(c7_get_config_arguments sampleTransport ("svcA".toList)
      ("getConfig".toList) ("cfg1".toList) ("FULL".toList)
      (by decide) (by decide)).1,
   (c7_get_config_arguments sampleTransport ("svcA".toList)
      ("getConfig".toList) ("cfg1".toList) ("FULL".toList)
      (by decide) (by decide)).2.2.2.2 9 rfl⟩

/-- C2: `get_enabled_apis` dispatches the list call with the `consumerId`
filter set to the formatted project name and `max_results = 100`, never
the raw unformatted id: its result depends only on the transport's
behaviour at exactly those arguments, and for an unprefixed input the
formatted name is `"project:" ++ p`, which differs from the raw `p`. -/
theorem c2_get_enabled_apis_dispatch {α : Type} (p : Str) :
    (∀ t t' : ServicesTransport α,
      t.list ⟨none, some (get_formatted_project_name p),
              some DEFAULT_MAX_RESULTS⟩ =
        t'.list ⟨none, some (get_formatted_project_name p),
                 some DEFAULT_MAX_RESULTS⟩ →
      get_enabled_apis t p = get_enabled_apis t' p) ∧
    DEFAULT_MAX_RESULTS = 100 ∧
    (startswith p ("project:".toList) = false →
      get_formatted_project_name p = "project:".toList ++ p ∧
      get_formatted_project_name p ≠ p) := by
  refine ⟨?_, rfl, ?_⟩
  · intro t t' h
    simp only [get_enabled_apis]
    rw [h]
  · intro h
    have h1 : get_formatted_project_name p = "project:".toList ++ p := by
      unfold get_formatted_project_name
      rw [h]
      simp
    refine ⟨h1, ?_⟩
    rw [h1]
    exact prepend_ne _ _ (by decide)

/-- C2 witness: concrete dispatch facts for project id `"p1"`. -/
theorem c2_get_enabled_apis_dispatch_witness :
    get_enabled_apis sampleTransport ("p1".toList) =
      get_enabled_apis sampleTransport ("p1".toList) ∧
    get_formatted_project_name ("p1".toList) = "project:p1".toList ∧
    get_formatted_project_name ("p1".toList) ≠ "p1".toList :=
  ⟨(c2_get_enabled_apis_dispatch (α := Nat) ("p1".toList)).1
      sampleTransport sampleTransport rfl,
   ((c2_get_enabled_apis_dispatch (α := Nat) ("p1".toList)).2.2
      (by decide)).1,
   ((c2_get_enabled_apis_dispatch (α := Nat) ("p1".toList)).2.2
      (by decide)).2⟩

/-- C3: `get_api_iam_policy` dispatches `get_iam_policy` with the
formatted service name, never the raw one: its result depends only on the
transport's behaviour at the formatted name, on success it returns the
policy document unchanged, and for an unprefixed input the formatted name
is `"services/" ++ s`, which differs from the raw `s`. -/
theorem c3_get_api_iam_policy_dispatch {α : Type} (s : Str) :
    (∀ t t' : ServicesTransport α,
      t.get_iam_policy (get_formatted_service_name s) =
        t'.get_iam_policy (get_formatted_service_name s) →
      get_api_iam_policy t s = get_api_iam_policy t' s) ∧
    (∀ (t : ServicesTransport α) (pol : α),
      t.get_iam_policy (get_formatted_service_name s) = .ok pol →
      get_api_iam_policy t s = .ok pol) ∧
    (startswith s ("services/".toList) = false →
      get_formatted_service_name s = "services/".toList ++ s ∧
      get_formatted_service_name s ≠ s) := by
  refine ⟨?_, ?_, ?_⟩
  · intro t t' h
    simp only [get_api_iam_policy]
    rw [h]
  · intro t pol h
    simp only [get_api_iam_policy]
    rw [h]
  · intro h
    have h1 : get_formatted_service_name s = "services/".toList ++ s := by
      unfold get_formatted_service_name
      rw [h]
      simp
    refine ⟨h1, ?_⟩
    rw [h1]
    exact prepend_ne _ _ (by decide)

/-- C3 witness: concrete dispatch facts for service name `"svcA"`. -/
theorem c3_get_api_iam_policy_dispatch_witness :
    get_api_iam_policy sampleTransport ("svcA".toList) = .ok 7 ∧
    get_formatted_service_name ("svcA".toList) = "services/svcA".toList ∧
    get_formatted_service_name ("svcA".toList) ≠ "svcA".toList :=
  ⟨(c3_get_api_iam_policy_dispatch ("svcA".toList)).2.1
      sampleTransport 7 rfl,
   ((c3_get_api_iam_policy_dispatch (α := Nat) ("svcA".toList)).2.2
      (by decide)).1,
   ((c3_get_api_iam_policy_dispatch (α := Nat) ("svcA".toList)).2.2
      (by decide)).2⟩

/-- C4: `get_all_apis` issues exactly one list call, with no
`producerProjectId`, no `consumerId` and `max_results = 100`; on
transport success it returns the flattened `'services'` arrays of all
pages; on transport failure it raises the wrapped domain error with an
empty label and no project or service tag. -/
theorem c4_get_all_apis_contract {α : Type} (t : ServicesTransport α) :
    DEFAULT_MAX_RESULTS = 100 ∧
    (∀ t' : ServicesTransport α,
      t.list ⟨none, none, some DEFAULT_MAX_RESULTS⟩ =
        t'.list ⟨none, none, some DEFAULT_MAX_RESULTS⟩ →
      get_all_apis t = get_all_apis t') ∧
    (∀ pages, t.list ⟨none, none, some DEFAULT_MAX_RESULTS⟩ = .ok pages →
      get_all_apis t = .ok (flatten_list_results pages ("services".toList))) ∧
    (∀ e, t.list ⟨none, none, some DEFAULT_MAX_RESULTS⟩ = .error e →
      e.isTransportFailure = true →
      get_all_apis t = .error (.apiError ⟨[], e, none⟩)) := by
  refine ⟨rfl, ?_, ?_, ?_⟩
  · intro t' h
    simp only [get_all_apis]
    rw [h]
  · intro pages h
    simp only [get_all_apis]
    rw [h]
  · intro e h ht
    simp only [get_all_apis]
    rw [h]
    simp [ht]

/-- C4 witness: concrete success and failure runs of `get_all_apis`. -/
theorem c4_get_all_apis_contract_witness :
    get_all_apis sampleTransport = .ok [1, 2, 3] ∧
    get_all_apis failingTransport =
      .error (.apiError ⟨[], .httpError 403 ("denied".toList), none⟩) :=
  ⟨((c4_get_all_apis_contract sampleTransport).2.2.1
      [[("services".toList, [1, 2])], [("services".toList, [3])]]
      rfl).trans (by rfl),
   (c4_get_all_apis_contract failingTransport).2.2.2
      (.httpError 403 ("denied".toList)) rfl (by decide)⟩

/-- Shared helper: case analysis of the uniform try/except pattern used by
all five client operations — success passes through `f`, a transport
failure is wrapped into the domain error with the given label and tag, and
any other exception propagates uncaught. -/
theorem translate_cases {β γ : Type} (call : Except PyException β)
    (r : Except ClientError γ) (f : β → γ) (lab : Str)
    (tg : Option (Str × Str))
    (hok : ∀ x, call = .ok x → r = .ok (f x))
    (herr : ∀ e, call = .error e →
      r = if e.isTransportFailure then .error (.apiError ⟨lab, e, tg⟩)
          else .error (.uncaught e)) :
    (raisesApiExecutionError r = true ↔
      ∃ e, call = .error e ∧ e.isTransportFailure = true) ∧
    (∀ e, call = .error e → e.isTransportFailure = true →
      r = .error (.apiError ⟨lab, e, tg⟩)) ∧
    (∀ e, call = .error e → e.isTransportFailure = false →
      r = .error (.uncaught e)) := by
  cases hc : call with
  | ok x =>
    rw [hok x hc]
    refine ⟨?_, ?_, ?_⟩
    · constructor
      · intro hfalse
        simp [raisesApiExecutionError] at hfalse
      · rintro ⟨e, he, -⟩
        exact Except.noConfusion he
    · intro e he ht
      exact Except.noConfusion he
    · intro e he ht
      exact Except.noConfusion he
  | error e0 =>
    have hr := herr e0 hc
    cases ht : e0.isTransportFailure with
    | true =>
      rw [ht, if_pos rfl] at hr
      rw [hr]
      refine ⟨?_, ?_, ?_⟩
      · constructor
        · intro hx
          exact ⟨e0, rfl, ht⟩
        · intro hx
          rfl
      · intro e he htr
        injection he with he'
        subst he'
        rfl
      · intro e he htr
        injection he with he'
        subst he'
        rw [ht] at htr
        exact absurd htr (by simp)
    | false =>
      rw [ht, if_neg (by simp)] at hr
      rw [hr]
      refine ⟨?_, ?_, ?_⟩
      · constructor
        · intro hx
          simp [raisesApiExecutionError] at hx
        · rintro ⟨e, he, htr⟩
          injection he with he'
          subst he'
          rw [ht] at htr
          exact absurd htr (by simp)
      · intro e he htr
        injection he with he'
        subst he'
        rw [ht] at htr
        exact absurd htr (by simp)
      · intro e he htr
        injection he with he'
        subst he'
        rfl

/-- Error-translation case analysis of `get_all_apis`. -/
theorem get_all_apis_cases {α : Type} (t : ServicesTransport α) :
    (raisesApiExecutionError (get_all_apis t) = true ↔
      ∃ e, t.list ⟨none, none, some DEFAULT_MAX_RESULTS⟩ = .error e ∧
        e.isTransportFailure = true) ∧
    (∀ e, t.list ⟨none, none, some DEFAULT_MAX_RESULTS⟩ = .error e →
      e.isTransportFailure = true →
      get_all_apis t = .error (.apiError ⟨[], e, none⟩)) ∧
    (∀ e, t.list ⟨none, none, some DEFAULT_MAX_RESULTS⟩ = .error e →
      e.isTransportFailure = false →
      get_all_apis t = .error (.uncaught e)) :=
  translate_cases _ (get_all_apis t)
    (fun pages => flatten_list_results pages ("services".toList)) [] none
    (fun x hx => by simp only [get_all_apis]; rw [hx])
    (fun e he => by simp only [get_all_apis]; rw [he])

/-- Error-translation case analysis of `get_produced_apis`. -/
theorem get_produced_apis_cases {α : Type} (t : ServicesTransport α)
    (p : Str) :
    (raisesApiExecutionError (get_produced_apis t p) = true ↔
      ∃ e, t.list ⟨some p, none, some DEFAULT_MAX_RESULTS⟩ = .error e ∧
        e.isTransportFailure = true) ∧
    (∀ e, t.list ⟨some p, none, some DEFAULT_MAX_RESULTS⟩ = .error e →
      e.isTransportFailure = true →
      get_produced_apis t p = .error (.apiError ⟨"name".toList, e,
        some ("project_id".toList, p)⟩)) ∧
    (∀ e, t.list ⟨some p, none, some DEFAULT_MAX_RESULTS⟩ = .error e →
      e.isTransportFailure = false →
      get_produced_apis t p = .error (.uncaught e)) :=
  translate_cases _ (get_produced_apis t p)
    (fun pages => flatten_list_results pages ("services".toList))
    ("name".toList) (some ("project_id".toList, p))
    (fun x hx => by simp only [get_produced_apis]; rw [hx])
    (fun e he => by simp only [get_produced_apis]; rw [he])

/-- Error-translation case analysis of `get_enabled_apis`. -/
theorem get_enabled_apis_cases {α : Type} (t : ServicesTransport α)
    (q : Str) :
    (raisesApiExecutionError (get_enabled_apis t q) = true ↔
      ∃ e, t.list ⟨none, some (get_formatted_project_name q),
          some DEFAULT_MAX_RESULTS⟩ = .error e ∧
        e.isTransportFailure = true) ∧
    (∀ e, t.list ⟨none, some (get_formatted_project_name q),
        some DEFAULT_MAX_RESULTS⟩ = .error e →
      e.isTransportFailure = true →
      get_enabled_apis t q = .error (.apiError ⟨"name".toList, e,
        some ("project_id".toList, q)⟩)) ∧
    (∀ e, t.list ⟨none, some (get_formatted_project_name q),
        some DEFAULT_MAX_RESULTS⟩ = .error e →
      e.isTransportFailure = false →
      get_enabled_apis t q = .error (.uncaught e)) :=
  translate_cases _ (get_enabled_apis t q)
    (fun pages => flatten_list_results pages ("services".toList))
    ("name".toList) (some ("project_id".toList, q))
    (fun x hx => by simp only [get_enabled_apis]; rw [hx])
    (fun e he => by simp only [get_enabled_apis]; rw [he])

/-- Error-translation case analysis of `get_api_iam_policy`. -/
theorem get_api_iam_policy_cases {α : Type} (t : ServicesTransport α)
    (s : Str) :
    (raisesApiExecutionError (get_api_iam_policy t s) = true ↔
      ∃ e, t.get_iam_policy (get_formatted_service_name s) = .error e ∧
        e.isTransportFailure = true) ∧
    (∀ e, t.get_iam_policy (get_formatted_service_name s) = .error e →
      e.isTransportFailure = true →
      get_api_iam_policy t s = .error (.apiError ⟨"serviceIamPolicy".toList,
        e, some ("serviceName".toList, s)⟩)) ∧
    (∀ e, t.get_iam_policy (get_formatted_service_name s) = .error e →
      e.isTransportFailure = false →
      get_api_iam_policy t s = .error (.uncaught e)) :=
  translate_cases _ (get_api_iam_policy t s) (fun pol => pol)
    ("serviceIamPolicy".toList) (some ("serviceName".toList, s))
    (fun x hx => by simp only [get_api_iam_policy]; rw [hx])
    (fun e he => by simp only [get_api_iam_policy]; rw [he])

/-- Error-translation case analysis of `get_full_api_configuration`. -/
theorem get_full_api_configuration_cases {α : Type}
    (t : ServicesTransport α) (u : Str) :
    (raisesApiExecutionError (get_full_api_configuration t u) = true ↔
      ∃ e, t.execute_query ("getConfig".toList)
          [("serviceName".toList, u)] = .error e ∧
        e.isTransportFailure = true) ∧
    (∀ e, t.execute_query ("getConfig".toList)
        [("serviceName".toList, u)] = .error e →
      e.isTransportFailure = true →
      get_full_api_configuration t u =
        .error (.apiError ⟨"serviceConfig".toList, e,
          some ("serviceName".toList, u)⟩)) ∧
    (∀ e, t.execute_query ("getConfig".toList)
        [("serviceName".toList, u)] = .error e →
      e.isTransportFailure = false →
      get_full_api_configuration t u = .error (.uncaught e)) :=
  translate_cases _ (get_full_api_configuration t u) (fun doc => doc)
    ("serviceConfig".toList) (some ("serviceName".toList, u))
    (fun x hx => by
      have hcfg : get_config t u none none ("getConfig".toList) =
          .ok x := hx
      simp only [get_full_api_configuration]
      rw [hcfg])
    (fun e he => by
      have hcfg : get_config t u none none ("getConfig".toList) =
          .error e := he
      simp only [get_full_api_configuration]
      rw [hcfg])

/-- C1: each of the five public operations raises the domain error
(`ApiExecutionError`) if and only if its underlying transport call raises
an HTTP-level or low-level transport failure; the raised error carries the
original cause and, where applicable, the raw caller-supplied identifier
(`project_id` or `serviceName`, not the formatted form); any other
exception type is never translated but propagates unchanged. -/
theorem c1_error_translation {α : Type} (t : ServicesTransport α)
    (p q s u : Str) :
    ((raisesApiExecutionError (get_all_apis t) = true ↔
        ∃ e, t.list ⟨none, none, some DEFAULT_MAX_RESULTS⟩ = .error e ∧
          e.isTransportFailure = true) ∧
     (∀ e, t.list ⟨none, none, some DEFAULT_MAX_RESULTS⟩ = .error e →
        e.isTransportFailure = true →
        get_all_apis t = .error (.apiError ⟨[], e, none⟩)) ∧
     (∀ e, t.list ⟨none, none, some DEFAULT_MAX_RESULTS⟩ = .error e →
        e.isTransportFailure = false →
        get_all_apis t = .error (.uncaught e))) ∧
    ((raisesApiExecutionError (get_produced_apis t p) = true ↔
        ∃ e, t.list ⟨some p, none, some DEFAULT_MAX_RESULTS⟩ = .error e ∧
          e.isTransportFailure = true) ∧
     (∀ e, t.list ⟨some p, none, some DEFAULT_MAX_RESULTS⟩ = .error e →
        e.isTransportFailure = true →
        get_produced_apis t p = .error (.apiError ⟨"name".toList, e,
          some ("project_id".toList, p)⟩)) ∧
     (∀ e, t.list ⟨some p, none, some DEFAULT_MAX_RESULTS⟩ = .error e →
        e.isTransportFailure = false →
        get_produced_apis t p = .error (.uncaught e))) ∧
    ((raisesApiExecutionError (get_enabled_apis t q) = true ↔
        ∃ e, t.list ⟨none, some (get_formatted_project_name q),
            some DEFAULT_MAX_RESULTS⟩ = .error e ∧
          e.isTransportFailure = true) ∧
     (∀ e, t.list ⟨none, some (get_formatted_project_name q),
          some DEFAULT_MAX_RESULTS⟩ = .error e →
        e.isTransportFailure = true →
        get_enabled_apis t q = .error (.apiError ⟨"name".toList, e,
          some ("project_id".toList, q)⟩)) ∧
     (∀ e, t.list ⟨none, some (get_formatted_project_name q),
          some DEFAULT_MAX_RESULTS⟩ = .error e →
        e.isTransportFailure = false →
        get_enabled_apis t q = .error (.uncaught e))) ∧
    ((raisesApiExecutionError (get_api_iam_policy t s) = true ↔
        ∃ e, t.get_iam_policy (get_formatted_service_name s) = .error e ∧
          e.isTransportFailure = true) ∧
     (∀ e, t.get_iam_policy (get_formatted_service_name s) = .error e →
        e.isTransportFailure = true →
        get_api_iam_policy t s =
          .error (.apiError ⟨"serviceIamPolicy".toList, e,
            some ("serviceName".toList, s)⟩)) ∧
     (∀ e, t.get_iam_policy (get_formatted_service_name s) = .error e →
        e.isTransportFailure = false →
        get_api_iam_policy t s = .error (.uncaught e))) ∧
    ((raisesApiExecutionError (get_full_api_configuration t u) = true ↔
        ∃ e, t.execute_query ("getConfig".toList)
            [("serviceName".toList, u)] = .error e ∧
          e.isTransportFailure = true) ∧
     (∀ e, t.execute_query ("getConfig".toList)
          [("serviceName".toList, u)] = .error e →
        e.isTransportFailure = true →
        get_full_api_configuration t u =
          .error (.apiError ⟨"serviceConfig".toList, e,
            some ("serviceName".toList, u)⟩)) ∧
     (∀ e, t.execute_query ("getConfig".toList)
          [("serviceName".toList, u)] = .error e →
        e.isTransportFailure = false →
        get_full_api_configuration t u = .error (.uncaught e))) :=
  ⟨get_all_apis_cases t, get_produced_apis_cases t p,
   get_enabled_apis_cases t q, get_api_iam_policy_cases t s,
   get_full_api_configuration_cases t u⟩

/-- C1 witness: a transport failure is wrapped with its cause and the raw
identifier; a non-transport exception propagates uncaught. -/
theorem c1_error_translation_witness :
    get_enabled_apis failingTransport ("p1".toList) =
      .error (.apiError ⟨"name".toList, .httpError 403 ("denied".toList),
                         some ("project_id".toList, "p1".toList)⟩) ∧
    get_api_iam_policy otherFailTransport ("svcA".toList) =
      .error (.uncaught (.otherError ("bad".toList))) :=
  ⟨(c1_error_translation failingTransport ("p1".toList) ("p1".toList)
      ("svcA".toList) ("svcA".toList)).2.2.1.2.1
      (.httpError 403 ("denied".toList)) rfl (by decide),
   (c1_error_translation otherFailTransport ("p1".toList) ("p1".toList)
      ("svcA".toList) ("svcA".toList)).2.2.2.1.2.2
      (.otherError ("bad".toList)) rfl (by decide)⟩

/-- C8 counterexample: two different failing operations —
`get_produced_apis` and `get_enabled_apis` — wrap their domain errors with
the identical label `'name'` (and even the identical tag), so the label
component of the raised error does not uniquely distinguish the failing
operation among the five public operations. -/
theorem c8_label_counterexample :
    errorLabel (get_produced_apis failingTransport ("p1".toList)) =
      some ("name".toList) ∧
    errorLabel (get_enabled_apis failingTransport ("p1".toList)) =
      some ("name".toList) ∧
    get_produced_apis failingTransport ("p1".toList) =
      get_enabled_apis failingTransport ("p1".toList) :=
  ⟨rfl, rfl, rfl⟩

/-- C8 amended: every domain error raised by one of the five public
operations is wrapped with an operation label — `''` for `get_all_apis`,
`'name'` for both `get_produced_apis` and `get_enabled_apis`,
`'serviceIamPolicy'` for `get_api_iam_policy`, `'serviceConfig'` for
`get_full_api_configuration`.  The four pairwise-distinct labels
distinguish `get_all_apis`, `get_api_iam_policy` and
`get_full_api_configuration` from each other and from the two project-list
operations, but `get_produced_apis` and `get_enabled_apis` share the label
`'name'` and are not distinguished from each other. -/
theorem c8_amended_operation_labels {α : Type} (t : ServicesTransport α)
    (p q s u : Str) (e : PyException) (he : e.isTransportFailure = true) :
    (t.list ⟨none, none, some DEFAULT_MAX_RESULTS⟩ = .error e →
      errorLabel (get_all_apis t) = some []) ∧
    (t.list ⟨some p, none, some DEFAULT_MAX_RESULTS⟩ = .error e →
      errorLabel (get_produced_apis t p) = some ("name".toList)) ∧
    (t.list ⟨none, some (get_formatted_project_name q),
        some DEFAULT_MAX_RESULTS⟩ = .error e →
      errorLabel (get_enabled_apis t q) = some ("name".toList)) ∧
    (t.get_iam_policy (get_formatted_service_name s) = .error e →
      errorLabel (get_api_iam_policy t s) =
        some ("serviceIamPolicy".toList)) ∧
    (t.execute_query ("getConfig".toList)
        [("serviceName".toList, u)] = .error e →
      errorLabel (get_full_api_configuration t u) =
        some ("serviceConfig".toList)) ∧
    (([] : Str) ≠ "name".toList ∧ ([] : Str) ≠ "serviceIamPolicy".toList ∧
     ([] : Str) ≠ "serviceConfig".toList ∧
     "name".toList ≠ "serviceIamPolicy".toList ∧
     "name".toList ≠ "serviceConfig".toList ∧
     "serviceIamPolicy".toList ≠ "serviceConfig".toList) := by
  refine ⟨?_, ?_, ?_, ?_, ?_, by decide⟩
  · intro h
    rw [(get_all_apis_cases t).2.1 e h he]
    rfl
  · intro h
    rw [(get_produced_apis_cases t p).2.1 e h he]
    rfl
  · intro h
    rw [(get_enabled_apis_cases t q).2.1 e h he]
    rfl
  · intro h
    rw [(get_api_iam_policy_cases t s).2.1 e h he]
    rfl
  · intro h
    rw [(get_full_api_configuration_cases t u).2.1 e h he]
    rfl

/-- C8 amended witness: concrete labels on a failing transport. -/
theorem c8_amended_operation_labels_witness :
    errorLabel (get_all_apis failingTransport) = some [] ∧
    errorLabel (get_api_iam_policy failingTransport ("svcA".toList)) =
      some ("serviceIamPolicy".toList) :=
  ⟨(c8_amended_operation_labels failingTransport ("p1".toList)
      ("p1".toList) ("svcA".toList) ("svcA".toList)
      (.httpError 403 ("denied".toList)) (by decide)).1 rfl,
   (c8_amended_operation_labels failingTransport ("p1".toList)
      ("p1".toList) ("svcA".toList) ("svcA".toList)
      (.httpError 403 ("denied".toList)) (by decide)).2.2.2.1 rfl⟩

end ServiceManagement
